import Mathlib

/-!
Shallow embedding of the RP2040 linear-interpolation demo
(`src/main.cpp`, function `adc_linear_interpolation`, together with the
blend-mode behaviour of the `interp0` peripheral that the program reads
through `interp0->peek[1]`).

All C++ `int` arithmetic is embedded over `Int`; C++ `/` on `int` is
truncating division, embedded as `Int.tdiv`.
-/

namespace ADCInterp

/-- C++ signed integer division: truncation toward zero. -/
def cdiv (a b : Int) : Int := Int.tdiv a b

/-- The 8-bit fraction resolution constant used by the spec
(`FRACTION_MAX = 255`). -/
def FRACTION_MAX : Int := 255

/-- A pair of bounds `{low, high}`; used both for the calibrated ADC range
and for the expected (target) range. -/
structure Range where
  low : Int
  high : Int
deriving DecidableEq, Repr

/-- The value the program writes to the fraction register `interp0->accum[1]`
(main.cpp lines 142 and 158):
`255 * (raw_val - calibrated_lo) / (calibrated_hi - calibrated_lo)`. -/
def fraction (raw : Int) (calibrated : Range) : Int :=
  cdiv (255 * (raw - calibrated.low)) (calibrated.high - calibrated.low)

/-- The lane-1 blend result the program reads back through
`interp0->peek[1]` with blend mode enabled, `base[0] = x0`, `base[1] = x1`
and `accum[1] = alpha`.

Modelled from the repository's own documentation of the peripheral
(main.cpp lines 67-79, 95-101 and 145-149): the fractional coefficient `a`
is formed from the least significant 8 bits of `accum[1]`, satisfies
`0 <= a < 1` in units of 1/256 (it "can't be 1"), the returned value is
"99.6% of the expected value" (255/256) at full scale, and the software
correction for it adds "1/256 of the approximated value".  Concretely:
`peek[1] = x0 + (x1 - x0) * alpha[7:0] >> 8`, the shift arithmetic. -/
def peek1 (x0 x1 alpha : Int) : Int :=
  x0 + (x1 - x0) * (alpha % 256) / 256

/-- The all-software reference value the program computes at main.cpp
lines 147 and 163:
`expected_lo + (expected_hi - expected_lo) * (raw_val - calibrated_lo) / (calibrated_hi - calibrated_lo)`. -/
def software (raw : Int) (calibrated expected : Range) : Int :=
  expected.low +
    cdiv ((expected.high - expected.low) * (raw - calibrated.low))
      (calibrated.high - calibrated.low)

/-- The raw hardware-accelerated value `int hardware = (int) interp0->peek[1]`
(main.cpp lines 148 and 164), after the program has loaded
`base[0] = expected_lo`, `base[1] = expected_hi` (lines 134-135) and written
the fraction (line 142/158). -/
def hardware (raw : Int) (calibrated expected : Range) : Int :=
  peek1 expected.low expected.high (fraction raw calibrated)

/-- The bias-correction step at main.cpp lines 149 and 165:
`hardware + (hardware >> 8)`, the shift arithmetic (8 bit positions). -/
def bias_correct (v : Int) : Int := v + (v >>> (8 : Nat))

/-- The corrected pipeline output `hw_corrected` (main.cpp lines 149, 165). -/
def hardware_corrected (raw : Int) (calibrated expected : Range) : Int :=
  bias_correct (hardware raw calibrated expected)

/-- The spec's stated blend formula (section 4.2):
`raw_value = expected.low + (expected.high - expected.low) * a / FRACTION_MAX`
with integer truncating division and `FRACTION_MAX = 255`.  Written from the
spec's words, to be compared with the program's `peek1` value. -/
def spec_raw_value (expected : Range) (a : Int) : Int :=
  expected.low + cdiv ((expected.high - expected.low) * a) FRACTION_MAX

/-- The spec's alternative form of the correction rule (section 4.2):
`raw_value + raw_value / FRACTION_MAX` with integer division and
`FRACTION_MAX = 255`.  Written from the spec's words, to be compared with
the program's `bias_correct`. -/
def spec_correct (v : Int) : Int := v + cdiv v FRACTION_MAX

/-- The spec's single error kind for degenerate ranges (section 7). -/
inductive DomainError where
  | degenerateRange
deriving DecidableEq, Repr

/-- Result record of the spec's interpolation API (section 3):
`{raw, corrected}`. -/
structure InterpolationResult where
  raw : Int
  corrected : Int
deriving DecidableEq, Repr

/-- Modelled from the spec: the API operation
`encode_fraction(raw, range) -> Coefficient [fails: DomainError]` of
section 6.  The `DomainError` guard for a degenerate range (`high <= low`,
sections 4.1 and 7) exists only in the spec — the source performs the
division at main.cpp line 142 unguarded; the arithmetic of the non-error
branch is the source's expression. -/
def encode_fraction (raw : Int) (range : Range) : Except DomainError Int :=
  if range.high ≤ range.low then .error .degenerateRange
  else .ok (fraction raw range)

/-- Modelled from the spec: the API operation
`interpolate(a, expected) -> InterpolationResult [fails: DomainError]` of
section 6.  The `DomainError` guard (section 4.2) exists only in the spec;
the raw value of the non-error branch is the blend the program reads back
(`peek1`), and the corrected value applies the source's correction step
(main.cpp line 149). -/
def interpolate (a : Int) (expected : Range) : Except DomainError InterpolationResult :=
  if expected.high ≤ expected.low then .error .degenerateRange
  else .ok ⟨peek1 expected.low expected.high a,
            bias_correct (peek1 expected.low expected.high a)⟩

/-- Modelled from the spec: the composed entry point
`map_value(raw, calibrated, expected)` of section 6, chaining
`encode_fraction` and `interpolate`. -/
def map_value (raw : Int) (calibrated expected : Range) :
    Except DomainError InterpolationResult :=
  match encode_fraction raw calibrated with
  | .error e => .error e
  | .ok a => interpolate a expected

/-! ### Helper lemmas -/

/-- Truncating division agrees with Euclidean division on non-negative
operands. -/
theorem cdiv_eq_ediv {a b : Int} (ha : 0 ≤ a) (hb : 0 ≤ b) : cdiv a b = a / b :=
  Int.tdiv_eq_ediv ha hb

/-- The correction step adds one 256th (rounded down, arithmetic shift). -/
theorem bias_correct_eq (v : Int) : bias_correct v = v + v / 256 := by
  unfold bias_correct
  rw [Int.shiftRight_eq_div_pow]
  norm_num

/-- For an in-range coefficient the 8-bit mask of the blend is the identity. -/
theorem peek1_eq {a : Int} (h0 : 0 ≤ a) (h1 : a < 256) (x0 x1 : Int) :
    peek1 x0 x1 a = x0 + (x1 - x0) * a / 256 := by
  unfold peek1
  rw [Int.emod_eq_of_lt h0 h1]

/-- For samples at or above the calibrated low bound, the truncating division
in the fraction computation is a Euclidean division. -/
theorem fraction_eq {raw : Int} {c : Range} (h1 : c.low ≤ raw) (h2 : c.low < c.high) :
    fraction raw c = 255 * (raw - c.low) / (c.high - c.low) :=
  cdiv_eq_ediv (mul_nonneg (by norm_num) (by omega)) (by omega)

/-- The fraction of an in-range sample is non-negative. -/
theorem fraction_nonneg {raw : Int} {c : Range} (h1 : c.low ≤ raw) (h2 : c.low < c.high) :
    0 ≤ fraction raw c := by
  rw [fraction_eq h1 h2]
  exact Int.ediv_nonneg (mul_nonneg (by norm_num) (by omega)) (by omega)

/-- The fraction of an in-range sample is at most 255. -/
theorem fraction_le_max {raw : Int} {c : Range} (h1 : c.low ≤ raw) (hr : raw ≤ c.high)
    (h2 : c.low < c.high) : fraction raw c ≤ 255 := by
  rw [fraction_eq h1 h2]
  calc 255 * (raw - c.low) / (c.high - c.low)
      ≤ 255 * (c.high - c.low) / (c.high - c.low) := Int.ediv_le_ediv (by omega) (by omega)
    _ = 255 := Int.mul_ediv_cancel 255 (by omega)

/-- The fraction is monotone in the sample over the calibrated range. -/
theorem fraction_mono {r1 r2 : Int} {c : Range} (h1 : c.low ≤ r1) (h12 : r1 ≤ r2)
    (h2 : c.low < c.high) : fraction r1 c ≤ fraction r2 c := by
  rw [fraction_eq h1 h2, fraction_eq (le_trans h1 h12) h2]
  exact Int.ediv_le_ediv (by omega) (by omega)

/-- Comparison of two Euclidean quotients via cross multiplication. -/
theorem ediv_le_ediv_of_mul_le_mul {x y p q : Int} (hp : 0 < p) (hq : 0 < q)
    (h : x * q ≤ y * p) : x / p ≤ y / q := by
  rw [Int.le_ediv_iff_mul_le hq]
  have h1 : x / p * p ≤ x := Int.ediv_mul_le x (by omega)
  have h2 : x / p * q * p ≤ y * p := by
    calc x / p * q * p = x / p * p * q := by ring
      _ ≤ x * q := mul_le_mul_of_nonneg_right h1 (by omega)
      _ ≤ y * p := h
  exact le_of_mul_le_mul_right h2 hp

/-! ### Claims -/

/-- C1 (counterexample): the spec's blend formula
`expected.low + (expected.high - expected.low) * a / FRACTION_MAX` with
`FRACTION_MAX = 255` does NOT equal the value the program reads back from
`interp0->peek[1]`: at the program's own operating point (`a = 80`,
`expected = {1000, 3000}`, reached from `raw = 1500` over
`calibrated = {900, 2800}`) the formula gives 1627 while the blend hardware
returns 1625. -/
theorem C1_counterexample :
    (0 : Int) ≤ 80 ∧ (80 : Int) ≤ FRACTION_MAX ∧ (1000 : Int) < 3000 ∧
    spec_raw_value ⟨1000, 3000⟩ 80 ≠ peek1 1000 3000 80 ∧
    hardware 1500 ⟨900, 2800⟩ ⟨1000, 3000⟩ = peek1 1000 3000 80 := by decide

/-- C1 (amended): for every coefficient `a` in `[0, 255]` and every expected
range with `high > low`, the value the program reads back from the hardware
blend (`interp0->peek[1]`) equals
`expected.low + (expected.high - expected.low) * a / (FRACTION_MAX + 1)`
with integer truncating division — i.e. the divisor is 256, not 255. -/
theorem C1_amended (a : Int) (e : Range) (h0 : 0 ≤ a) (h1 : a ≤ FRACTION_MAX)
    (he : e.low < e.high) :
    e.low + cdiv ((e.high - e.low) * a) (FRACTION_MAX + 1) = peek1 e.low e.high a := by
  simp only [FRACTION_MAX] at h1 ⊢
  rw [peek1_eq h0 (by omega), cdiv_eq_ediv (mul_nonneg (by omega) h0) (by norm_num)]
  norm_num

/-- C1 (witness): the amended blend identity instantiated at `a = 80`,
`expected = {1000, 3000}`. -/
theorem C1_amended_witness :
    (0 : Int) ≤ 80 ∧ (80 : Int) ≤ FRACTION_MAX ∧ (1000 : Int) < 3000 ∧
    1000 + cdiv ((3000 - 1000) * 80) (FRACTION_MAX + 1) = peek1 1000 3000 80 :=
  ⟨by decide, by decide, by decide,
    C1_amended 80 ⟨1000, 3000⟩ (by decide) (by decide) (by decide)⟩

/-- C2: for every raw sample and every calibrated range with `high > low`,
the encoded coefficient is
`FRACTION_MAX * (raw - range.low) / (range.high - range.low)` with
`FRACTION_MAX = 255` and integer truncating division, and this is exactly
the value the program stores into the fraction register (`accum[1]`,
main.cpp line 142/158). -/
theorem C2_register_value (raw : Int) (r : Range) (h : r.low < r.high) :
    encode_fraction raw r =
      Except.ok (Int.tdiv (FRACTION_MAX * (raw - r.low)) (r.high - r.low)) := by
  unfold encode_fraction
  rw [if_neg (by omega)]
  rfl

/-- C2 (witness): the register value at `raw = 1500`,
`calibrated = {900, 2800}`. -/
theorem C2_register_value_witness :
    (900 : Int) < 2800 ∧
    encode_fraction 1500 ⟨900, 2800⟩ =
      Except.ok (Int.tdiv (FRACTION_MAX * (1500 - 900)) (2800 - 900)) :=
  ⟨by decide, C2_register_value 1500 ⟨900, 2800⟩ (by decide)⟩

/-- C3 (counterexample): the two forms of the correction rule the spec calls
equivalent are not: at `raw_value = 255`, the program's
`raw_value + (raw_value >> 8)` gives 255, while the spec's
`raw_value + raw_value / FRACTION_MAX` with `FRACTION_MAX = 255` gives 256. -/
theorem C3_counterexample :
    (0 : Int) ≤ 255 ∧ bias_correct 255 ≠ spec_correct 255 := by decide

/-- C3 (amended): for every non-negative `raw_value`, the program's
bias-corrected result `raw_value + (raw_value >> FRACTION_BITS)` with
`FRACTION_BITS = 8` equals `raw_value + raw_value / (FRACTION_MAX + 1)`
with integer division — i.e. the divisor is 256, not `FRACTION_MAX = 255`. -/
theorem C3_amended (v : Int) (h : 0 ≤ v) :
    bias_correct v = v + cdiv v (FRACTION_MAX + 1) := by
  rw [bias_correct_eq, cdiv_eq_ediv h (by norm_num [FRACTION_MAX])]
  norm_num [FRACTION_MAX]

/-- C3 (witness): the amended correction identity instantiated at 255. -/
theorem C3_amended_witness :
    (0 : Int) ≤ 255 ∧ bias_correct 255 = 255 + cdiv 255 (FRACTION_MAX + 1) :=
  ⟨by decide, C3_amended 255 (by decide)⟩

/-- C4: for every degenerate range (`high <= low`), both `encode_fraction`
and `interpolate` fail with `DomainError` and return no value (the guard is
the spec's; the source performs the division unguarded). -/
theorem C4_degenerate_rejected (raw a : Int) (r e : Range)
    (hr : r.high ≤ r.low) (he : e.high ≤ e.low) :
    encode_fraction raw r = Except.error DomainError.degenerateRange ∧
    interpolate a e = Except.error DomainError.degenerateRange := by
  constructor
  · unfold encode_fraction
    rw [if_pos hr]
  · unfold interpolate
    rw [if_pos he]

/-- C4 (witness): `calibrated = {50, 50}` and `expected = {100, 100}` are
both rejected with `DomainError`. -/
theorem C4_degenerate_rejected_witness :
    (50 : Int) ≤ 50 ∧ (100 : Int) ≤ 100 ∧
    encode_fraction 1500 ⟨50, 50⟩ = Except.error DomainError.degenerateRange ∧
    interpolate 0 ⟨100, 100⟩ = Except.error DomainError.degenerateRange := by
  refine ⟨by decide, by decide, ?_, ?_⟩
  · exact (C4_degenerate_rejected 1500 0 ⟨50, 50⟩ ⟨100, 100⟩ (by decide) (by decide)).1
  · exact (C4_degenerate_rejected 1500 0 ⟨50, 50⟩ ⟨100, 100⟩ (by decide) (by decide)).2

/-- C5 (counterexample): with the program's hard-coded constants
(`calibrated = {900, 2800}`, `expected = {1000, 3000}`, `raw = 1500`) the
coefficient is 80 as claimed, but the raw interpolated value is 1625 (not
1627) and the corrected value is 1631 (not 1633). -/
theorem C5_counterexample :
    fraction 1500 ⟨900, 2800⟩ = 80 ∧
    hardware 1500 ⟨900, 2800⟩ ⟨1000, 3000⟩ = 1625 ∧
    hardware_corrected 1500 ⟨900, 2800⟩ ⟨1000, 3000⟩ = 1631 ∧
    (1625 : Int) ≠ 1627 ∧ (1631 : Int) ≠ 1633 := by decide

/-- C5 (amended): with the program's hard-coded constants the pipeline
produces coefficient `a = 80`, raw interpolated value 1625 and corrected
value 1631. -/
theorem C5_amended :
    fraction 1500 ⟨900, 2800⟩ = 80 ∧
    hardware 1500 ⟨900, 2800⟩ ⟨1000, 3000⟩ = 1625 ∧
    hardware_corrected 1500 ⟨900, 2800⟩ ⟨1000, 3000⟩ = 1631 := by decide

/-- C6 (counterexample): the composed raw output is NOT non-decreasing over
all raw inputs — the blend only uses the least significant 8 bits of the
fraction register, so a sample past the calibrated range wraps: with
`calibrated = {0, 1}` and `expected = {0, 25600}`, raw input 1 maps to
25500 but raw input 2 maps to 25400. -/
theorem C6_counterexample :
    (0 : Int) < 1 ∧ (0 : Int) < 25600 ∧ (1 : Int) < 2 ∧
    hardware 2 ⟨0, 1⟩ ⟨0, 25600⟩ < hardware 1 ⟨0, 1⟩ ⟨0, 25600⟩ := by decide

/-- C6 (amended): for every fixed calibrated and expected range (each with
`high > low`), the raw interpolated output of the composed map is
non-decreasing in the raw input over the calibrated range
(`calibrated.low <= raw <= calibrated.high`). -/
theorem C6_amended (c e : Range) (r1 r2 : Int) (hc : c.low < c.high)
    (he : e.low < e.high) (h1 : c.low ≤ r1) (h12 : r1 ≤ r2) (h2 : r2 ≤ c.high) :
    hardware r1 c e ≤ hardware r2 c e := by
  have ha1 : 0 ≤ fraction r1 c := fraction_nonneg h1 hc
  have ha2 : 0 ≤ fraction r2 c := fraction_nonneg (le_trans h1 h12) hc
  have hb2 : fraction r2 c ≤ 255 := fraction_le_max (le_trans h1 h12) h2 hc
  have hm : fraction r1 c ≤ fraction r2 c := fraction_mono h1 h12 hc
  unfold hardware
  rw [peek1_eq ha1 (by omega), peek1_eq ha2 (by omega)]
  exact add_le_add_left
    (Int.ediv_le_ediv (by norm_num)
      (mul_le_mul_of_nonneg_left hm (by omega : (0 : Int) ≤ e.high - e.low))) e.low

/-- C6 (witness): monotonicity instantiated at the program's ranges with
raw inputs 1400 and 1500. -/
theorem C6_amended_witness :
    (900 : Int) < 2800 ∧ (1000 : Int) < 3000 ∧ (900 : Int) ≤ 1400 ∧
    (1400 : Int) ≤ 1500 ∧ (1500 : Int) ≤ 2800 ∧
    hardware 1400 ⟨900, 2800⟩ ⟨1000, 3000⟩ ≤ hardware 1500 ⟨900, 2800⟩ ⟨1000, 3000⟩ :=
  ⟨by decide, by decide, by decide, by decide, by decide,
    C6_amended ⟨900, 2800⟩ ⟨1000, 3000⟩ 1400 1500 (by decide) (by decide) (by decide)
      (by decide) (by decide)⟩

/-- C7: for every calibrated range with `high > low`, encoding the sample
`raw = calibrated.low` yields coefficient 0, and for every expected range
with `high > low`, interpolating coefficient 0 yields a raw result exactly
equal to `expected.low`. -/
theorem C7_low_endpoint (c e : Range) (hc : c.low < c.high) (he : e.low < e.high) :
    encode_fraction c.low c = Except.ok 0 ∧
    ∃ res, interpolate 0 e = Except.ok res ∧ res.raw = e.low := by
  have hp : peek1 e.low e.high 0 = e.low := by
    unfold peek1
    norm_num
  constructor
  · unfold encode_fraction
    rw [if_neg (by omega)]
    have h0 : fraction c.low c = 0 := by
      unfold fraction cdiv
      simp
    rw [h0]
  · refine ⟨⟨peek1 e.low e.high 0, bias_correct (peek1 e.low e.high 0)⟩, ?_, by rw [hp]⟩
    unfold interpolate
    rw [if_neg (by omega)]

/-- C7 (witness): the low-endpoint behaviour at the program's ranges. -/
theorem C7_low_endpoint_witness :
    (900 : Int) < 2800 ∧ (1000 : Int) < 3000 ∧
    (encode_fraction 900 ⟨900, 2800⟩ = Except.ok 0 ∧
      ∃ res, interpolate 0 ⟨1000, 3000⟩ = Except.ok res ∧ res.raw = 1000) :=
  ⟨by decide, by decide, C7_low_endpoint ⟨900, 2800⟩ ⟨1000, 3000⟩ (by decide) (by decide)⟩

/-- C8: for every calibrated range with `high > low`, encoding
`raw = calibrated.high` yields `a = FRACTION_MAX = 255` (the code is
unclamped), and for every expected range with `high > low`, the raw result
of interpolating coefficient `FRACTION_MAX` never exceeds `expected.high`. -/
theorem C8_full_scale (c e : Range) (hc : c.low < c.high) (he : e.low < e.high) :
    encode_fraction c.high c = Except.ok FRACTION_MAX ∧
    ∃ res, interpolate FRACTION_MAX e = Except.ok res ∧ res.raw ≤ e.high := by
  constructor
  · unfold encode_fraction
    rw [if_neg (by omega)]
    have h0 : fraction c.high c = FRACTION_MAX := by
      show Int.tdiv (255 * (c.high - c.low)) (c.high - c.low) = FRACTION_MAX
      rw [Int.mul_tdiv_cancel 255 (by omega)]
      rfl
    rw [h0]
  · refine ⟨⟨peek1 e.low e.high FRACTION_MAX,
        bias_correct (peek1 e.low e.high FRACTION_MAX)⟩, ?_, ?_⟩
    · unfold interpolate
      rw [if_neg (by omega)]
    · show peek1 e.low e.high FRACTION_MAX ≤ e.high
      rw [peek1_eq (by norm_num [FRACTION_MAX]) (by norm_num [FRACTION_MAX])]
      have hd : (e.high - e.low) * FRACTION_MAX / 256 ≤ (e.high - e.low) * 256 / 256 :=
        Int.ediv_le_ediv (by norm_num) (by simp only [FRACTION_MAX]; omega)
      rw [Int.mul_ediv_cancel _ (by norm_num)] at hd
      linarith

/-- C8 (witness): the full-scale behaviour at the program's ranges. -/
theorem C8_full_scale_witness :
    (900 : Int) < 2800 ∧ (1000 : Int) < 3000 ∧
    (encode_fraction 2800 ⟨900, 2800⟩ = Except.ok FRACTION_MAX ∧
      ∃ res, interpolate FRACTION_MAX ⟨1000, 3000⟩ = Except.ok res ∧ res.raw ≤ 3000) :=
  ⟨by decide, by decide, C8_full_scale ⟨900, 2800⟩ ⟨1000, 3000⟩ (by decide) (by decide)⟩

/-- C9: with the program's constants `calibrated = {900, 2800}` and
`expected = {1000, 3000}`, the in-range sample `raw = 2800` produces
corrected value 3003, strictly greater than `expected.high = 3000`: the
bias-correction step can push the result outside the expected range. -/
theorem C9_overshoot :
    (900 : Int) ≤ 2800 ∧ (2800 : Int) ≤ 2800 ∧
    hardware_corrected 2800 ⟨900, 2800⟩ ⟨1000, 3000⟩ = 3003 ∧
    (3000 : Int) < hardware_corrected 2800 ⟨900, 2800⟩ ⟨1000, 3000⟩ := by decide

/-- C10: for every raw sample within the calibrated range and every pair of
ranges with `high > low` and non-negative endpoints, the uncorrected
hardware-interpolated value (through the quantized coefficient and the
blend) never exceeds the program's direct software reference value
(main.cpp line 147). -/
theorem C10_undershoot (c e : Range) (raw : Int) (hc : c.low < c.high)
    (he : e.low < e.high) (hcl : 0 ≤ c.low) (hel : 0 ≤ e.low)
    (h1 : c.low ≤ raw) (h2 : raw ≤ c.high) :
    hardware raw c e ≤ software raw c e := by
  have ha0 : 0 ≤ fraction raw c := fraction_nonneg h1 hc
  have ha255 : fraction raw c ≤ 255 := fraction_le_max h1 h2 hc
  have key : fraction raw c * (c.high - c.low) ≤ 255 * (raw - c.low) := by
    rw [fraction_eq h1 hc]
    exact Int.ediv_mul_le _ (by omega)
  unfold hardware software
  rw [peek1_eq ha0 (by omega), cdiv_eq_ediv (mul_nonneg (by omega) (by omega)) (by omega)]
  apply add_le_add_left
  apply ediv_le_ediv_of_mul_le_mul (by norm_num) (by omega)
  calc (e.high - e.low) * fraction raw c * (c.high - c.low)
      = (e.high - e.low) * (fraction raw c * (c.high - c.low)) := by ring
    _ ≤ (e.high - e.low) * (255 * (raw - c.low)) :=
        mul_le_mul_of_nonneg_left key (by omega)
    _ ≤ (e.high - e.low) * (256 * (raw - c.low)) := by
        apply mul_le_mul_of_nonneg_left _ (by omega)
        omega
    _ = (e.high - e.low) * (raw - c.low) * 256 := by ring

/-- C10 (witness): the undershoot bound at the program's operating point
(hardware value 1625, software reference 1631). -/
theorem C10_undershoot_witness :
    (900 : Int) < 2800 ∧ (1000 : Int) < 3000 ∧ (0 : Int) ≤ 900 ∧ (0 : Int) ≤ 1000 ∧
    (900 : Int) ≤ 1500 ∧ (1500 : Int) ≤ 2800 ∧
    hardware 1500 ⟨900, 2800⟩ ⟨1000, 3000⟩ ≤ software 1500 ⟨900, 2800⟩ ⟨1000, 3000⟩ :=
  ⟨by decide, by decide, by decide, by decide, by decide, by decide,
    C10_undershoot ⟨900, 2800⟩ ⟨1000, 3000⟩ 1500 (by decide) (by decide) (by decide)
      (by decide) (by decide) (by decide)⟩

end ADCInterp
